import Mathlib

/-!
Verification of the decision-tree text/plot helpers of `dmba` (`graphs.py`).

The central function is `text_decision_tree`: it reads the fitted tree's
arrays (`node_count`, `children_left`, `children_right`, `feature`,
`threshold`, `value`), allocates per-node depth and leaf-flag
bookkeeping arrays, and runs an explicit stack seeded with `(0, -1)`
before emitting one line per node index `0 .. n_nodes-1`, joined with
newlines.

A load-bearing fact of this source: graphs.py line 13 is
`import jax.numpy as np`, so the two bookkeeping arrays created by
`np.zeros` (lines 153-154) are jax arrays, which are immutable — the
in-place item assignments `node_depth[node_id] = parent_depth + 1`
(line 158) and `is_leaves[node_id] = True` (line 164) raise
`TypeError`. Since the stack is seeded unconditionally, the first loop
iteration always reaches line 158, so the function raises for every
input and never builds a report.

Modelling conventions:
- numpy/jax integer arrays are embedded as functions `ℤ → ℤ` (indexing
  takes signed integers); float arrays as `ℤ → ℚ`; the 2-D `value`
  array of a node as `List (List ℚ)`.
- a jax item assignment is embedded by `jaxSetItem`, which raises
  (`Except.error PyError.typeError`) instead of returning an updated
  array; the loop threads its state through `TraverseState` and a
  raise carries the state at the point of the exception.
- the unbounded Python `while` loop is embedded with fuel (`none` =
  fuel ran out; in fact one unit is enough, since the first iteration
  raises).
- Python float division is embedded over `ℚ`; a division whose
  denominator is zero yields a non-finite float (`nan`/`inf`) in
  Python, embedded as `Option ℚ` with `none` standing for the
  non-finite result and rendered as `"nan"`.
- Python `round(x, 3)` (round-half-to-even to 3 decimal places) is
  embedded exactly over `ℚ` by `roundTo3`; the decimal text of the
  resulting numbers by `decStr`, and the numpy `repr` used by the
  count-mode f-string by `npArrayStr`.
- the stack is embedded as a list whose head is the top of the stack
  (Python appends and pops at the end of its list).
- `TraverseState.order` is a ghost field recording the node ids of
  completed iterations; it influences nothing (and stays empty, since
  no iteration ever completes).
-/

/-- The arrays of a fitted scikit-learn tree (`decision_tree.tree_`),
as read by `text_decision_tree` (graphs.py lines 146-151). -/
structure DecisionTree where
  n_nodes : ℕ
  children_left : ℤ → ℤ
  children_right : ℤ → ℤ
  feature : ℤ → ℤ
  threshold : ℤ → ℚ
  value : ℤ → List (List ℚ)

/-- The state of the traversal loop of `text_decision_tree`
(graphs.py lines 153-164): the borrowed tree arrays, the two jax
bookkeeping arrays `node_depth` and `is_leaves`, the stack, and a
ghost record of the completed iterations. -/
structure TraverseState where
  tree : DecisionTree
  node_depth : ℤ → ℤ
  is_leaves : ℤ → Bool
  stack : List (ℤ × ℤ)
  order : List ℤ

/-- Initial state of the loop: `node_depth = np.zeros`, `is_leaves =
np.zeros(dtype=bool)`, `stack = [(0, -1)]` (graphs.py lines 153-155);
allocating the jax arrays succeeds, only writing to them raises. -/
def initState (t : DecisionTree) : TraverseState :=
  { tree := t
    node_depth := fun _ => 0
    is_leaves := fun _ => false
    stack := [(0, -1)]
    order := [] }

/-- A Python exception of the embedded code. -/
inductive PyError where
  | typeError
  deriving DecidableEq

/-- Item assignment `a[i] = v` on a jax.numpy array (graphs.py line 13
imports `jax.numpy as np`, so `np.zeros` produces jax arrays): jax
arrays are immutable and do not support in-place item assignment — the
write raises `TypeError` and never yields an updated array. -/
def jaxSetItem {α : Type} (_a : ℤ → α) (_i : ℤ) (_v : α) : Except PyError (ℤ → α) :=
  Except.error PyError.typeError

/-- The `while len(stack) > 0` loop of graphs.py lines 156-164, with
fuel bounding the number of iterations (`none` = fuel ran out). Each
iteration pops `(node_id, parent_depth)` and then executes
`node_depth[node_id] = parent_depth + 1` (line 158): an item
assignment on the immutable jax array, which raises `TypeError` —
carried together with the state at the raise (the pop has happened,
nothing has been written). The rest of the body is the faithful
continuation that the raise makes unreachable: the test-node branch
pushes the two children (lines 160-162, left first, right on top), the
leaf branch executes `is_leaves[node_id] = True` (line 164, another
jax write). The ghost `order` field records a node id only when its
iteration completes. -/
def runTraverse (fuel : ℕ) (s : TraverseState) :
    Option (Except (PyError × TraverseState) TraverseState) :=
  match fuel, s.stack with
  | _, [] => some (Except.ok s)
  | 0, _ :: _ => none
  | f + 1, (node_id, parent_depth) :: rest =>
    match jaxSetItem s.node_depth node_id (parent_depth + 1) with
    | Except.error e => some (Except.error (e, { s with stack := rest }))
    | Except.ok nd =>
      if s.tree.children_left node_id ≠ s.tree.children_right node_id then
        runTraverse f
          { tree := s.tree
            node_depth := nd
            is_leaves := s.is_leaves
            stack := (s.tree.children_right node_id, parent_depth + 1) ::
              (s.tree.children_left node_id, parent_depth + 1) :: rest
            order := s.order ++ [node_id] }
      else
        match jaxSetItem s.is_leaves node_id true with
        | Except.error e =>
          some (Except.error (e, { s with node_depth := nd, stack := rest }))
        | Except.ok lv =>
          runTraverse f
            { tree := s.tree
              node_depth := nd
              is_leaves := lv
              stack := rest
              order := s.order ++ [node_id] }

/-- Python `round(q, 3)` on an exact value: multiply by 1000, round
half to even, divide back. -/
def roundHalfEven (q : ℚ) : ℤ :=
  let f : ℤ := Int.floor q
  let frac : ℚ := q - f
  if frac < 1/2 then f
  else if 1/2 < frac then f + 1
  else if Even f then f else f + 1

/-- Round to 3 decimal places, half to even (Python `round(x, 3)`). -/
def roundTo3 (q : ℚ) : ℚ := (roundHalfEven (q * 1000) : ℚ) / 1000

/-- The ratio conversion of graphs.py line 172:
`[[round(vi / sum(v), 3) for vi in v] for v in value]`. A division by a
zero sum yields a non-finite float in Python, embedded as `none`.
(Dead code in the source: the traversal raises first.) -/
def ratioValue (value : List (List ℚ)) : List (List (Option ℚ)) :=
  value.map (fun v => v.map (fun vi =>
    if v.sum = 0 then none else some (roundTo3 (vi / v.sum))))

/-- Decimal digits after the point for a numerator `fp < 1000` of a
fraction `fp / 1000`, with trailing zeros dropped (as Python float
`repr` prints them). -/
def fracDigits (fp : ℕ) : String :=
  let d1 := fp / 100
  let d2 := fp / 10 % 10
  let d3 := fp % 10
  if d3 ≠ 0 then toString d1 ++ toString d2 ++ toString d3
  else if d2 ≠ 0 then toString d1 ++ toString d2
  else toString d1

/-- Exact decimal rendering of a rational whose denominator divides
1000 (every number the ratio branch would print is of this form),
modelling the decimal `repr` of the corresponding Python float. -/
def decStr (q : ℚ) : String :=
  if q.den = 1 then toString q.num
  else if ((1000 : ℚ) * q).den = 1 then
    let sign := if q < 0 then "-" else ""
    let m := ((1000 : ℚ) * q).num.natAbs
    sign ++ toString (m / 1000) ++ "." ++ fracDigits (m % 1000)
  else toString q.num ++ "/" ++ toString q.den

/-- Rendering of one inner sequence of a ratio-mode leaf value; `none`
(a non-finite float) prints as `nan`. -/
def showRList (xs : List (Option ℚ)) : String :=
  "[" ++ String.intercalate ", "
    (xs.map (fun x => match x with | some q => decStr q | none => "nan")) ++ "]"

/-- Rendering of a ratio-mode leaf value (a Python list of lists). -/
def showRLists (xss : List (List (Option ℚ))) : String :=
  "[" ++ String.intercalate ", " (xss.map showRList) ++ "]"

/-- numpy `repr` of one float64 inside an array: integral values print
with a trailing dot (`2.`), fractional values with their decimal
digits. -/
def npFloatStr (q : ℚ) : String :=
  if q.den = 1 then toString q.num ++ "."
  else decStr q

/-- The count-mode `f'{value}'` of a leaf prints the numpy `repr` of
the 2-D float `value` array: rows of space-separated floats, e.g.
`[[2. 2. 4.]]` (multi-row alignment simplified to a newline join). -/
def npArrayStr (xss : List (List ℚ)) : String :=
  "[" ++ String.intercalate "\n " (xss.map (fun u =>
    "[" ++ String.intercalate " " (u.map npFloatStr) ++ "]")) ++ "]"

/-- Python `n * indent` string repetition (graphs.py line 168). -/
def indentRep (n : ℕ) (indent : String) : String :=
  match n with
  | 0 => ""
  | m + 1 => indent ++ indentRep m indent

/-- One line of the report (graphs.py lines 168-176), given
`node_depth` and `is_leaves` arrays: `common =
f'{node_depth[i] * indent}node={i}'`; a leaf prints `leaf node:` with
the raw numpy `repr` of the value (count mode) or the ratio list, a
test node prints the `go to node .. if .. <= .. else to node ..` rule.
(Dead code in the source: the loop that would produce the arrays
raises first.) -/
def nodeLine (t : DecisionTree) (indent : String) (asRatio : Bool)
    (nd : ℤ → ℤ) (lv : ℤ → Bool) (i : ℕ) : String :=
  let common := indentRep (nd i).toNat indent ++ "node=" ++ toString i
  if lv i then
    common ++ " leaf node: " ++
      (if asRatio then showRLists (ratioValue (t.value i)) else npArrayStr (t.value i))
  else
    common ++ " test node: go to node " ++ toString (t.children_left i) ++
      " if " ++ toString (t.feature i) ++ " <= " ++ decStr (t.threshold i) ++
      " else to node " ++ toString (t.children_right i)

/-- The report construction of graphs.py lines 153-177: run the
traversal from the seeded stack, and only on a normal return build
`rep`, one line per node index `i in range(n_nodes)` in ascending
order; the traversal's `TypeError` propagates to the caller.
`n_nodes + 1` fuel is more than the loop can consume (it raises at its
first iteration). -/
def textDecisionTreeLines (t : DecisionTree) (indent : String) (asRatio : Bool) :
    Option (Except PyError (List String)) :=
  match runTraverse (t.n_nodes + 1) (initState t) with
  | none => none
  | some (Except.error (e, _)) => some (Except.error e)
  | some (Except.ok s) =>
    some (Except.ok ((List.range t.n_nodes).map (fun i =>
      nodeLine t indent asRatio s.node_depth s.is_leaves i)))

/-- `text_decision_tree` (graphs.py lines 137-177): `'\n'.join(rep)`
on a normal return; in fact every call raises `TypeError` out of the
traversal loop, because the bookkeeping arrays are immutable jax
arrays. -/
def text_decision_tree (t : DecisionTree) (indent : String) (asRatio : Bool) :
    Option (Except PyError String) :=
  (textDecisionTreeLines t indent asRatio).map (fun r =>
    r.map (String.intercalate "\n"))

/-! ## Concrete instances

`ex3` is the 3-node tree of spec §8: root test node (feature 0,
threshold 1.5, left child 1, right child 2) and two leaves. `exRatio`
and `exZero` are single-leaf trees with value `[[2,2,4]]` and
`[[0,0,0]]`. Unused array slots carry the scikit-learn sentinels
(children -1, feature -2, threshold -2). -/

/-- The 3-node tree of spec §8. -/
def ex3 : DecisionTree :=
  { n_nodes := 3
    children_left := fun i => if i = 0 then 1 else -1
    children_right := fun i => if i = 0 then 2 else -1
    feature := fun i => if i = 0 then 0 else -2
    threshold := fun i => if i = 0 then (3 : ℚ)/2 else -2
    value := fun i => if i = 1 then [[2, 2, 4]] else [[0, 1, 3]] }

/-- Single-leaf tree with value `[[2, 2, 4]]` (spec §8 ratio example). -/
def exRatio : DecisionTree :=
  { n_nodes := 1
    children_left := fun _ => -1
    children_right := fun _ => -1
    feature := fun _ => -2
    threshold := fun _ => -2
    value := fun _ => [[2, 2, 4]] }

/-- Single-leaf tree with value `[[0, 0, 0]]` (spec §8 zero-sum
example). -/
def exZero : DecisionTree :=
  { n_nodes := 1
    children_left := fun _ => -1
    children_right := fun _ => -1
    feature := fun _ => -2
    threshold := fun _ => -2
    value := fun _ => [[0, 0, 0]] }

/-! ## The traversal always raises -/

/-- From any state with a nonempty stack, the first iteration pops and
then raises `TypeError` at the jax write of graphs.py line 158; the
state at the raise has the entry popped and nothing written. -/
theorem runTraverse_raises (f : ℕ) (s : TraverseState) (node_id parent_depth : ℤ)
    (rest : List (ℤ × ℤ)) (hs : s.stack = (node_id, parent_depth) :: rest) :
    runTraverse (f + 1) s =
      some (Except.error (PyError.typeError, { s with stack := rest })) := by
  obtain ⟨t, nd, lv, stack, ord⟩ := s
  replace hs : stack = (node_id, parent_depth) :: rest := hs
  subst hs
  rfl

/-- The seeded traversal raises at its first pop, for every tree: the
state at the raise is the initial state with the seed `(0, -1)`
popped — no depth written, no leaf flagged, no iteration completed. -/
theorem runTraverse_init_raises (t : DecisionTree) :
    runTraverse (t.n_nodes + 1) (initState t) =
      some (Except.error (PyError.typeError, { initState t with stack := [] })) :=
  runTraverse_raises t.n_nodes (initState t) 0 (-1) [] rfl

/-! ## The claims -/

/-- Claim C1 counterexample: at the 3-node tree of spec §8 the report
contains no lines at all — the traversal's first write (graphs.py line
158) is an item assignment on an immutable jax.numpy array and raises
`TypeError` — so the line for node 2 does not appear before the line
for node 1: no line for either node, in any order, is ever emitted. -/
theorem claim_C1_counterexample :
    textDecisionTreeLines ex3 "  " false = some (Except.error PyError.typeError) := by
  rw [textDecisionTreeLines, runTraverse_init_raises]

/-- Claim C1 (amended): for every tree, indentation and mode, the
report loop of graphs.py lines 166-176 is never reached: the traversal
raises `TypeError` at its first iteration, so the report contains no
lines — neither in stack-pop order nor in ascending node-index
order. -/
theorem claim_C1_no_lines (t : DecisionTree) (indent : String) (r : Bool) :
    textDecisionTreeLines t indent r = some (Except.error PyError.typeError) := by
  rw [textDecisionTreeLines, runTraverse_init_raises]

/-- Claim C2: evaluation of the code at the failing input. A
single-leaf tree with value `[[0, 0, 0]]` in ratio mode raises
`TypeError` at the first bookkeeping write (graphs.py line 158),
before the ratio division at line 172 is ever reached: the call fails,
but with an undesignated `TypeError` unrelated to the leaf values, not
with the designated `InvalidLeafValue` error the claim and spec
(sections 4.1 and 7) require. -/
theorem claim_C2_typeerror :
    text_decision_tree exZero "  " true = some (Except.error PyError.typeError) := by
  rw [text_decision_tree, textDecisionTreeLines, runTraverse_init_raises]
  rfl

/-- Claim C3: evaluation of the code. For every tree — in particular
every well-formed tree with N nodes — `text_decision_tree` returns no
report at all (the traversal raises `TypeError` before the report loop
runs), so the report does not contain N lines, nor a single leaf line
for a single-node tree. -/
theorem claim_C3_no_report (t : DecisionTree) (indent : String) (r : Bool) :
    text_decision_tree t indent r = some (Except.error PyError.typeError) := by
  rw [text_decision_tree, textDecisionTreeLines, runTraverse_init_raises]
  rfl

/-- Claim C4: evaluation of the code at the 3-node tree in count mode:
no line is emitted for any node — the traversal raises `TypeError`
before any line of the prescribed leaf/test formats could be
produced. -/
theorem claim_C4_no_line :
    text_decision_tree ex3 "  " false = some (Except.error PyError.typeError) := by
  rw [text_decision_tree, textDecisionTreeLines, runTraverse_init_raises]
  rfl

/-- Claim C5: evaluation of the code at the `[[2, 2, 4]]` leaf in
ratio mode: the leaf is never rendered (`is_leaves` can never be set —
line 164 is never even reached, line 158 raises first), so no
`[[0.25, 0.25, 0.5]]` output is produced. -/
theorem claim_C5_leaf_never_rendered :
    text_decision_tree exRatio "  " true = some (Except.error PyError.typeError) := by
  rw [text_decision_tree, textDecisionTreeLines, runTraverse_init_raises]
  rfl

/-- Claim C6: evaluation of the traversal at the 3-node tree: the
first iteration raises `TypeError` before the leaf test of graphs.py
line 160 runs; the state at the raise still has every leaf flag
`false`, no child pushed, and no completed visit — no node is ever
classified, rendered, or visited. -/
theorem claim_C6_no_visit :
    runTraverse (ex3.n_nodes + 1) (initState ex3) =
      some (Except.error (PyError.typeError,
        { tree := ex3, node_depth := fun _ => 0, is_leaves := fun _ => false,
          stack := [], order := [] })) :=
  runTraverse_init_raises ex3

/-- Claim C7 counterexample: at the 3-node tree the call returns no
report string at all — it raises `TypeError` — so two calls do not
"return byte-identical report strings" (there are no report strings to
compare). -/
theorem claim_C7_counterexample :
    text_decision_tree ex3 "  " true = some (Except.error PyError.typeError) := by
  rw [text_decision_tree, textDecisionTreeLines, runTraverse_init_raises]
  rfl

/-- Claim C7 (amended): `text_decision_tree` is deterministic in that
its outcome is a function of the tree arrays, the indent and the flag
alone — two calls on (extensionally) the same unmodified inputs yield
identical outcomes; that identical outcome is the `TypeError` raised
at the first bookkeeping write, not a report string. -/
theorem claim_C7_deterministic (t1 t2 : DecisionTree) (indent : String) (r : Bool)
    (h0 : t1.n_nodes = t2.n_nodes)
    (h1 : ∀ j, t1.children_left j = t2.children_left j)
    (h2 : ∀ j, t1.children_right j = t2.children_right j)
    (h3 : ∀ j, t1.feature j = t2.feature j)
    (h4 : ∀ j, t1.threshold j = t2.threshold j)
    (h5 : ∀ j, t1.value j = t2.value j) :
    text_decision_tree t1 indent r = text_decision_tree t2 indent r := by
  have heq : t1 = t2 := by
    obtain ⟨n1, cl1, cr1, f1, th1, v1⟩ := t1
    obtain ⟨n2, cl2, cr2, f2, th2, v2⟩ := t2
    simp only [DecisionTree.mk.injEq]
    exact ⟨h0, funext h1, funext h2, funext h3, funext h4, funext h5⟩
  rw [heq]

/-- Claim C7 witness: two calls on the 3-node tree agree. -/
theorem claim_C7_deterministic_witness :
    text_decision_tree ex3 "  " true = text_decision_tree ex3 "  " true :=
  claim_C7_deterministic ex3 ex3 "  " true rfl (fun _ => rfl) (fun _ => rfl)
    (fun _ => rfl) (fun _ => rfl) (fun _ => rfl)

/-- State reached by one traversal run: the final state on a normal
return, the state at the raise on `TypeError`. -/
def traverseOutcomeState : Except (PyError × TraverseState) TraverseState → TraverseState
  | Except.ok s => s
  | Except.error (_, s) => s

/-- Claim C9: the call mutates none of the input tree's arrays — every
outcome of the traversal, including the `TypeError` its first write
raises, carries the borrowed tree arrays unchanged; the only state the
call creates is the transient bookkeeping in `TraverseState` (stack,
depth array, leaf-flag array), and, since it aborts, not even an
output string. -/
theorem claim_C9_no_mutation (fuel : ℕ) (s : TraverseState) :
    (((runTraverse fuel s).map traverseOutcomeState).getD s).tree = s.tree := by
  obtain ⟨t, nd, lv, stack, ord⟩ := s
  cases fuel with
  | zero =>
    cases stack with
    | nil => rfl
    | cons e rest => rfl
  | succ f =>
    cases stack with
    | nil => rfl
    | cons e rest =>
      obtain ⟨nid, pd⟩ := e
      rfl

/-! ## plot_decision_tree (graphs.py lines 99-132)

Only its control flow on the capability flags and the `pdf_file`
argument is in scope: the exported dot source, the layout and the
bytes of the rendered artefacts belong to external collaborators. The
render calls are recorded as ghost effects. -/

/-- Value returned by `plot_decision_tree`: a descriptive message
string (a missing optional dependency), an inline notebook image, or
Python's `None`. -/
inductive PlotResult where
  | message (s : String)
  | image
  | pyNone

/-- Ghost record of the render calls: `graph.render(...,
outfile=pdf_file)` writing the PDF, and the PNG render backing the
inline image. -/
inductive RenderEffect where
  | pdfWritten (path : String)
  | pngRendered
  deriving DecidableEq

/-- Python truthiness used at graphs.py line 118: `not pdf_file` holds
when the argument is `None` or the empty string. -/
def pdfFalsy : Option String → Bool
  | none => true
  | some p => p == ""

/-- Control flow of `plot_decision_tree` (graphs.py lines 99-132),
over the import-time capability flags `HAS_GRAPHVIZ` and `HAS_IMAGE`
and the `pdf_file` argument: missing graphviz returns a message
string; missing inline display with a falsy `pdf_file` returns a
message string; otherwise the PDF is rendered when `pdf_file is not
None`, and the call returns the inline image when display is
available, else `None`. -/
def plot_decision_tree (hasGraphviz hasImage : Bool) (pdf_file : Option String) :
    PlotResult × List RenderEffect :=
  if !hasGraphviz then
    (PlotResult.message "You need to install graphviz to visualize decision trees", [])
  else if !hasImage && pdfFalsy pdf_file then
    (PlotResult.message "You need to install Image and/or graphviz to visualize decision trees", [])
  else
    let pdfEff : List RenderEffect :=
      match pdf_file with
      | some p => [RenderEffect.pdfWritten p]
      | none => []
    if hasImage then (PlotResult.image, pdfEff ++ [RenderEffect.pngRendered])
    else (PlotResult.pyNone, pdfEff)

/-- Claim C8: when graphviz is unavailable, or inline display is
unavailable and no `pdf_file` is supplied, `plot_decision_tree`
returns a descriptive message string to the caller (and performs no
render); in the embedding the function is total, so the condition
never aborts the caller. -/
theorem claim_C8_missing_dependency (hasGraphviz hasImage : Bool) (pdf_file : Option String)
    (h : hasGraphviz = false ∨ (hasImage = false ∧ pdf_file = none)) :
    ∃ msg, plot_decision_tree hasGraphviz hasImage pdf_file = (PlotResult.message msg, []) := by
  rcases h with h | ⟨h1, h2⟩
  · subst h
    exact ⟨_, rfl⟩
  · subst h1
    subst h2
    cases hasGraphviz
    · exact ⟨_, rfl⟩
    · exact ⟨_, rfl⟩

/-- Claim C8 witness: graphviz absent. -/
theorem claim_C8_missing_dependency_witness :
    ∃ msg, plot_decision_tree false true none = (PlotResult.message msg, []) :=
  claim_C8_missing_dependency false true none (Or.inl rfl)

/-- Claim C10: with graphviz available, inline display unavailable and
a (non-empty) `pdf_file` path supplied, the call renders the PDF to the
supplied path and returns `None` — neither a message string nor an
image. -/
theorem claim_C10_pdf_returns_none (p : String) (hp : p ≠ "") :
    plot_decision_tree true false (some p) =
      (PlotResult.pyNone, [RenderEffect.pdfWritten p]) := by
  simp [plot_decision_tree, pdfFalsy, hp]

/-- Claim C10 witness at the path `"tree.pdf"`. -/
theorem claim_C10_pdf_returns_none_witness :
    plot_decision_tree true false (some "tree.pdf") =
      (PlotResult.pyNone, [RenderEffect.pdfWritten "tree.pdf"]) :=
  claim_C10_pdf_returns_none "tree.pdf" (by decide)
